import Mathlib

/-!
Shallow embedding of the e-commerce analytics platform (src/api/main.py):
the two database tables, the aggregation endpoints (sales, customer,
product), the health check and the seed endpoint, with theorems checking
the natural-language specification against this embedding.

Modelling conventions:
  * a database state is a pair of lists of rows (`Db`);
  * SQL `Float` money columns are modelled as `Rat`, integer columns as
    `Int`, dates/timestamps as `Int` (day ordinal), strings as `String`;
  * the storage layer either yields the database state or fails; failure
    is an `Except` error, and the endpoint wrappers map it to the HTTP
    500 response exactly as the `try/except` blocks in the source do;
  * SQL `GROUP BY` is modelled by deduplicating the group keys in row
    order and aggregating each group; `ORDER BY v DESC LIMIT 10` is
    modelled by `List.insertionSort` with a descending comparator
    followed by `List.take 10`;
  * Python dictionaries built row-by-row are modelled as association
    lists in insertion order.
-/

namespace ECommerceAnalytics

/-- A row of the `sales_transactions` table (class `SalesTransaction`). -/
structure SalesTransaction where
  transaction_id : String
  customer_id : String
  product_id : String
  product_name : String
  category : String
  quantity : Int
  unit_price : Rat
  total_amount : Rat
  transaction_date : Int
  region : String
  channel : String
deriving DecidableEq, Repr

/-- A row of the `customer_metrics` table (class `CustomerMetrics`). -/
structure CustomerMetrics where
  customer_id : String
  total_orders : Int
  total_spent : Rat
  avg_order_value : Rat
  last_purchase_date : Int
  customer_lifetime_value : Rat
  is_active : Bool
  acquisition_date : Int
deriving DecidableEq, Repr

/-- The relational store: both tables. -/
structure Db where
  sales_transactions : List SalesTransaction
  customer_metrics : List CustomerMetrics
deriving DecidableEq, Repr

/-- Descending comparison on a `Rat`-valued projection, used to model
`ORDER BY ... DESC`. -/
def byDesc {α : Type} (f : α → Rat) (a b : α) : Prop :=
  f b ≤ f a

instance {α : Type} (f : α → Rat) : DecidableRel (byDesc f) :=
  fun a b => inferInstanceAs (Decidable (f b ≤ f a))

instance {α : Type} (f : α → Rat) : IsTotal α (byDesc f) :=
  ⟨fun a b => le_total (f b) (f a)⟩

instance {α : Type} (f : α → Rat) : IsTrans α (byDesc f) :=
  ⟨fun _ _ _ h₁ h₂ => le_trans h₂ h₁⟩

/-! ### Sales analytics (`get_sales_analytics`) -/

/-- The query parameters of `GET /api/v1/analytics/sales`. -/
structure SalesFilter where
  start_date : Option Int
  end_date : Option Int
  region : Option String
  channel : Option String
deriving DecidableEq, Repr

/-- Date defaulting of `get_sales_analytics`: if no end date, use today;
if no start date, use the resolved end date minus 30 days. -/
def resolveDates (today : Int) (f : SalesFilter) : Int × Int :=
  let e := match f.end_date with
    | some e => e
    | none => today
  let s := match f.start_date with
    | some s => s
    | none => e - 30
  (s, e)

/-- The WHERE clause built by `get_sales_analytics`: date in range and,
when present, exact region/channel match. -/
def matchesFilter (today : Int) (f : SalesFilter) (t : SalesTransaction) : Bool :=
  let (s, e) := resolveDates today f
  decide (s ≤ t.transaction_date) && decide (t.transaction_date ≤ e) &&
    (match f.region with
      | some r => t.region == r
      | none => true) &&
    (match f.channel with
      | some c => t.channel == c
      | none => true)

/-- The rows of `sales_transactions` satisfying the WHERE clause. -/
def filteredRows (today : Int) (f : SalesFilter) (db : Db) : List SalesTransaction :=
  db.sales_transactions.filter (matchesFilter today f)

/-- `SUM(total_amount)` over a list of rows. -/
def sumAmount (rows : List SalesTransaction) : Rat :=
  (rows.map (·.total_amount)).sum

/-- One entry of `top_selling_products`: the grouping key
`(product_name, product_id)` with the per-group aggregates. -/
structure ProductGroup where
  product_name : String
  product_id : String
  total_quantity : Int
  total_revenue : Rat
deriving DecidableEq, Repr

/-- The `GROUP BY product_name, product_id` key of a row. -/
def productKey (t : SalesTransaction) : String × String :=
  (t.product_name, t.product_id)

/-- `SUM(quantity)` over the rows of one product group. -/
def groupQuantity (rows : List SalesTransaction) (k : String × String) : Int :=
  ((rows.filter (fun t => productKey t == k)).map (·.quantity)).sum

/-- `SUM(total_amount)` over the rows of one product group. -/
def groupRevenue (rows : List SalesTransaction) (k : String × String) : Rat :=
  sumAmount (rows.filter (fun t => productKey t == k))

/-- The grouped rows of the top-products query, one entry per distinct
`(product_name, product_id)` among `rows`, before ordering. -/
def groupedProducts (rows : List SalesTransaction) : List ProductGroup :=
  ((rows.map productKey).dedup).map fun k =>
    { product_name := k.1
      product_id := k.2
      total_quantity := groupQuantity rows k
      total_revenue := groupRevenue rows k }

/-- `top_selling_products`: grouped, ordered by revenue descending,
limited to 10. -/
def topSellingProducts (rows : List SalesTransaction) : List ProductGroup :=
  (List.insertionSort (byDesc ProductGroup.total_revenue) (groupedProducts rows)).take 10

/-- The `GROUP BY region` revenue query, as an association list in row
order of first appearance of each region. -/
def revenueByRegion (rows : List SalesTransaction) : List (String × Rat) :=
  ((rows.map (·.region)).dedup).map fun r =>
    (r, sumAmount (rows.filter (fun t => t.region == r)))

/-- The `GROUP BY channel` revenue query, as an association list. -/
def revenueByChannel (rows : List SalesTransaction) : List (String × Rat) :=
  ((rows.map (·.channel)).dedup).map fun c =>
    (c, sumAmount (rows.filter (fun t => t.channel == c)))

/-- The response schema of the sales endpoint. -/
structure SalesMetricsResponse where
  total_revenue : Rat
  total_transactions : Nat
  avg_transaction_value : Rat
  top_selling_products : List ProductGroup
  revenue_by_region : List (String × Rat)
  revenue_by_channel : List (String × Rat)
deriving DecidableEq, Repr

/-- The body of `get_sales_analytics` on a successfully fetched database
state: SUM/COUNT/AVG over the filtered rows (SQL `SUM`/`AVG` are `NULL`
on an empty set, which the handler coerces to 0), the top-products
query, and the two per-dimension revenue maps. -/
def getSalesAnalytics (today : Int) (f : SalesFilter) (db : Db) : SalesMetricsResponse :=
  let rows := filteredRows today f db
  { total_revenue := sumAmount rows
    total_transactions := rows.length
    avg_transaction_value :=
      if rows.length = 0 then 0 else sumAmount rows / rows.length
    top_selling_products := topSellingProducts rows
    revenue_by_region := revenueByRegion rows
    revenue_by_channel := revenueByChannel rows }

/-! ### Customer analytics (`get_customer_analytics`) -/

/-- One entry of `top_customers`. -/
structure TopCustomer where
  customer_id : String
  total_spent : Rat
  total_orders : Int
  customer_lifetime_value : Rat
deriving DecidableEq, Repr

/-- The response schema of the customer endpoint. -/
structure CustomerAnalyticsResponse where
  total_customers : Nat
  active_customers : Nat
  avg_customer_lifetime_value : Rat
  customer_retention_rate : Rat
  top_customers : List TopCustomer
deriving DecidableEq, Repr

/-- `SUM(customer_lifetime_value)` over the `customer_metrics` rows. -/
def sumCLV (rows : List CustomerMetrics) : Rat :=
  (rows.map (·.customer_lifetime_value)).sum

/-- The body of `get_customer_analytics` on a successfully fetched
database state. The `start_date`/`end_date` query parameters are
accepted by the route but never used by the body, exactly as in the
source. -/
def getCustomerAnalytics (start_date end_date : Option Int) (db : Db) :
    CustomerAnalyticsResponse :=
  let rows := db.customer_metrics
  let total_customers := rows.length
  let active_customers := (rows.filter (·.is_active)).length
  let avg_clv := if total_customers = 0 then 0 else sumCLV rows / total_customers
  let retention_rate :=
    if 0 < total_customers then
      (active_customers : Rat) / (total_customers : Rat) * 100
    else 0
  let top_customers :=
    ((List.insertionSort (byDesc CustomerMetrics.customer_lifetime_value) rows).take 10).map
      fun c =>
        { customer_id := c.customer_id
          total_spent := c.total_spent
          total_orders := c.total_orders
          customer_lifetime_value := c.customer_lifetime_value }
  { total_customers := total_customers
    active_customers := active_customers
    avg_customer_lifetime_value := avg_clv
    customer_retention_rate := retention_rate
    top_customers := top_customers }

/-! ### Product analytics (`get_product_analytics`) -/

/-- One entry of `top_performing_products`, keyed by
`(product_id, product_name, category)`. -/
structure ProductPerf where
  product_name : String
  category : String
  product_id : String
  total_sold : Int
  total_revenue : Rat
  avg_price : Rat
deriving DecidableEq, Repr

/-- The response schema of the product endpoint.
`inventory_insights` is the dictionary
`(total_categories, most_profitable_category, least_profitable_category)`. -/
structure ProductPerformanceResponse where
  total_products : Nat
  top_performing_products : List ProductPerf
  category_performance : List (String × Rat)
  total_categories : Nat
  most_profitable_category : Option String
  least_profitable_category : Option String
deriving DecidableEq, Repr

/-- The optional `WHERE category = ...` filter appended by
`get_product_analytics` to its product queries. -/
def rowsForCategory (category : Option String) (db : Db) : List SalesTransaction :=
  match category with
  | some c => db.sales_transactions.filter (fun t => t.category == c)
  | none => db.sales_transactions

/-- The `GROUP BY product_id, product_name, category` key of a row. -/
def perfKey (t : SalesTransaction) : String × String × String :=
  (t.product_id, t.product_name, t.category)

/-- The grouped rows of the top-performing-products query, one entry per
distinct `(product_id, product_name, category)`, before ordering. -/
def groupedPerf (rows : List SalesTransaction) : List ProductPerf :=
  ((rows.map perfKey).dedup).map fun k =>
    let grp := rows.filter (fun t => perfKey t == k)
    { product_name := k.2.1
      category := k.2.2
      product_id := k.1
      total_sold := (grp.map (·.quantity)).sum
      total_revenue := sumAmount grp
      avg_price :=
        if grp.length = 0 then 0 else (grp.map (·.unit_price)).sum / grp.length }

/-- `category_performance`: `GROUP BY category` revenue over ALL
transactions, `ORDER BY revenue DESC`, as an association list. -/
def categoryPerformance (db : Db) : List (String × Rat) :=
  List.insertionSort (byDesc Prod.snd)
    (((db.sales_transactions.map (·.category)).dedup).map fun c =>
      (c, sumAmount (db.sales_transactions.filter (fun t => t.category == c))))

/-- Python `max(d, key=d.get)`: the first key in iteration order whose
value is maximal (later keys replace only on a strictly greater value). -/
def pyMaxKey : List (String × Rat) → Option String
  | [] => none
  | x :: xs => some (xs.foldl (fun b a => if b.2 < a.2 then a else b) x).1

/-- Python `min(d, key=d.get)`: the first key in iteration order whose
value is minimal. -/
def pyMinKey : List (String × Rat) → Option String
  | [] => none
  | x :: xs => some (xs.foldl (fun b a => if a.2 < b.2 then a else b) x).1

/-- The body of `get_product_analytics` on a successfully fetched
database state. Only `total_products` and `top_performing_products`
apply the category filter; `category_performance` and the insight
fields are computed over the whole table. -/
def getProductAnalytics (category : Option String) (db : Db) :
    ProductPerformanceResponse :=
  let catRows := rowsForCategory category db
  let catPerf := categoryPerformance db
  { total_products := ((catRows.map (·.product_id)).dedup).length
    top_performing_products :=
      (List.insertionSort (byDesc ProductPerf.total_revenue) (groupedPerf catRows)).take 10
    category_performance := catPerf
    total_categories := catPerf.length
    most_profitable_category := pyMaxKey catPerf
    least_profitable_category := pyMinKey catPerf }

/-! ### Health check, seed endpoint, and the HTTP error boundary -/

/-- The HTTPException raised by the endpoint handlers on failure. -/
structure HTTPError where
  status_code : Nat
  detail : String
deriving DecidableEq, Repr

/-- The response schema of `GET /health`. -/
structure HealthResponse where
  status : String
  timestamp : Int
  database_status : String
  environment : String
deriving DecidableEq, Repr

/-- `health_check`: the `SELECT 1` round-trip outcome is a parameter;
its failure is caught inside the handler and turned into the
"unhealthy" status, so the handler always returns a normal response. -/
def healthCheck (roundTrip : Except String Unit) (now : Int) (environment : String) :
    Except HTTPError HealthResponse :=
  let db_status := match roundTrip with
    | Except.ok _ => "healthy"
    | Except.error _ => "unhealthy"
  Except.ok
    { status := if db_status == "healthy" then "healthy" else "unhealthy"
      timestamp := now
      database_status := db_status
      environment := environment }

/-- `seed_sample_data`: returns the (possibly updated) database state
and the response message. On a non-empty table it reports the existing
count and changes nothing; the empty-table branch is unimplemented in
the source and also changes nothing. -/
def seedSampleData (db : Db) : Db × String :=
  let existing_count := db.sales_transactions.length
  if 0 < existing_count then
    (db, "Database already contains " ++ toString existing_count ++ " transactions")
  else
    (db, "Sample data seeding endpoint - implement based on business requirements")

/-- The `try/except` boundary of `get_sales_analytics`: a storage
failure becomes HTTP 500 with the generic detail; otherwise the
computed bundle is returned whole. -/
def salesEndpoint (today : Int) (f : SalesFilter) (fetched : Except String Db) :
    Except HTTPError SalesMetricsResponse :=
  match fetched with
  | Except.error _ => Except.error { status_code := 500, detail := "Internal server error" }
  | Except.ok db => Except.ok (getSalesAnalytics today f db)

/-- The `try/except` boundary of `get_customer_analytics`. -/
def customersEndpoint (start_date end_date : Option Int) (fetched : Except String Db) :
    Except HTTPError CustomerAnalyticsResponse :=
  match fetched with
  | Except.error _ => Except.error { status_code := 500, detail := "Internal server error" }
  | Except.ok db => Except.ok (getCustomerAnalytics start_date end_date db)

/-- The `try/except` boundary of `get_product_analytics`. -/
def productsEndpoint (category : Option String) (fetched : Except String Db) :
    Except HTTPError ProductPerformanceResponse :=
  match fetched with
  | Except.error _ => Except.error { status_code := 500, detail := "Internal server error" }
  | Except.ok db => Except.ok (getProductAnalytics category db)

/-! ### Concrete sample data for witnesses -/

/-- A concrete transaction row used by witness instantiations. -/
def sampleTxn : SalesTransaction :=
  { transaction_id := "t1"
    customer_id := "c1"
    product_id := "p1"
    product_name := "Widget"
    category := "Gadgets"
    quantity := 2
    unit_price := 25
    total_amount := 50
    transaction_date := 10
    region := "US"
    channel := "online" }

/-- A concrete database state used by witness instantiations. -/
def sampleDb : Db :=
  { sales_transactions := [sampleTxn]
    customer_metrics := [] }

/-! ### Theorems -/

/-- C1: for every database state and filter combination, the sales
aggregation's `total_revenue` is the sum of `total_amount` over exactly
the rows satisfying the active filters (hence 0 when no row does),
`total_transactions` is their count, and `avg_transaction_value` their
mean (0 if none). -/
theorem sales_totals_are_filtered_aggregates (today : Int) (f : SalesFilter) (db : Db) :
    (getSalesAnalytics today f db).total_revenue =
      ((db.sales_transactions.filter (matchesFilter today f)).map
        (fun t => t.total_amount)).sum ∧
    (getSalesAnalytics today f db).total_transactions =
      (db.sales_transactions.filter (matchesFilter today f)).length ∧
    (getSalesAnalytics today f db).avg_transaction_value =
      (if (db.sales_transactions.filter (matchesFilter today f)).length = 0 then 0
       else ((db.sales_transactions.filter (matchesFilter today f)).map
          (fun t => t.total_amount)).sum /
         ((db.sales_transactions.filter (matchesFilter today f)).length : Rat)) :=
  ⟨rfl, rfl, rfl⟩

/-- C2: a row enters the sales aggregation's filtered set exactly when
its date is within the (defaulted) inclusive range and any present
region/channel parameter matches exactly; a missing end date defaults
to today and a missing start date to the resolved end date minus 30
days. -/
theorem filter_row_membership (db : Db) (today : Int) (sd ed : Option Int)
    (reg ch : Option String) (t : SalesTransaction) :
    t ∈ filteredRows today ⟨sd, ed, reg, ch⟩ db ↔
      (t ∈ db.sales_transactions ∧
        (sd.getD (ed.getD today - 30) ≤ t.transaction_date ∧
          t.transaction_date ≤ ed.getD today) ∧
        (∀ r, reg = some r → t.region = r) ∧
        (∀ c, ch = some c → t.channel = c)) := by
  cases sd <;> cases ed <;> cases reg <;> cases ch <;>
    simp [filteredRows, List.mem_filter, matchesFilter, resolveDates, and_assoc]

/-- Under a reversed date range no row passes the WHERE clause. -/
theorem filteredRows_nil_of_reversed (today s e : Int) (reg ch : Option String)
    (db : Db) (h : e < s) :
    filteredRows today ⟨some s, some e, reg, ch⟩ db = [] := by
  rw [filteredRows]
  rw [List.filter_eq_nil_iff]
  intro t _
  simp [matchesFilter, resolveDates]
  intro h1 h2
  omega

/-- C3: with start_date > end_date the sales aggregation still succeeds
and returns the all-empty bundle: zero revenue, zero transactions, zero
average, and empty product list and revenue maps. -/
theorem reversed_range_yields_empty (today s e : Int) (reg ch : Option String)
    (db : Db) (h : s > e) :
    getSalesAnalytics today ⟨some s, some e, reg, ch⟩ db =
      { total_revenue := 0
        total_transactions := 0
        avg_transaction_value := 0
        top_selling_products := []
        revenue_by_region := []
        revenue_by_channel := [] } := by
  have hnil := filteredRows_nil_of_reversed today s e reg ch db h
  simp [getSalesAnalytics, hnil, sumAmount, topSellingProducts, groupedProducts,
    revenueByRegion, revenueByChannel]

/-- Witness for C3 at a concrete reversed range over a non-empty
database. -/
theorem reversed_range_yields_empty_witness :
    (1 : Int) > 0 ∧
    getSalesAnalytics 5 ⟨some 1, some 0, none, none⟩ sampleDb =
      { total_revenue := 0
        total_transactions := 0
        avg_transaction_value := 0
        top_selling_products := []
        revenue_by_region := []
        revenue_by_channel := [] } :=
  ⟨by decide, reversed_range_yields_empty 5 1 0 none none sampleDb (by decide)⟩

/-- C4: the customer aggregation ignores its date parameters: any two
choices (including omission) yield identical responses. -/
theorem customer_analytics_ignores_dates (db : Db) (sd₁ ed₁ sd₂ ed₂ : Option Int) :
    getCustomerAnalytics sd₁ ed₁ db = getCustomerAnalytics sd₂ ed₂ db :=
  rfl

/-- C5: `customer_retention_rate` is `active / total × 100` when the
table is non-empty and 0 when it is empty; the computation is a total
function, so the empty table cannot raise a division error. -/
theorem retention_rate_guarded (sd ed : Option Int) (db : Db) :
    (getCustomerAnalytics sd ed db).customer_retention_rate =
      (if db.customer_metrics.length = 0 then 0
       else ((db.customer_metrics.filter (fun c => c.is_active)).length : Rat) /
         (db.customer_metrics.length : Rat) * 100) := by
  unfold getCustomerAnalytics
  rcases Nat.eq_zero_or_pos db.customer_metrics.length with h | h
  · simp [h]
  · simp [h, Nat.pos_iff_ne_zero.mp h]

/-- C7: the health check always returns a normal response for every
outcome of the storage round-trip; its `status` is `"healthy"` exactly
when the round-trip succeeded, and a failure shows up as `"unhealthy"`
in the body, independent of application data. -/
theorem health_check_never_raises (rt : Except String Unit) (now : Int) (env : String) :
    healthCheck rt now env =
      Except.ok
        { status := if rt.isOk then "healthy" else "unhealthy"
          timestamp := now
          database_status := if rt.isOk then "healthy" else "unhealthy"
          environment := env } := by
  cases rt <;> rfl

/-- C8: for each of the three analytics endpoints, a storage-layer
failure is reported as HTTP 500 with the generic detail message, and
nothing of a partial result is returned. -/
theorem storage_failure_maps_to_500 (e : String) (today : Int) (f : SalesFilter)
    (sd ed : Option Int) (cat : Option String) :
    salesEndpoint today f (Except.error e) =
      Except.error { status_code := 500, detail := "Internal server error" } ∧
    customersEndpoint sd ed (Except.error e) =
      Except.error { status_code := 500, detail := "Internal server error" } ∧
    productsEndpoint cat (Except.error e) =
      Except.error { status_code := 500, detail := "Internal server error" } :=
  ⟨rfl, rfl, rfl⟩

/-- C9: seeding against a non-empty `sales_transactions` table reports
the existing count in its message and returns the database state
unchanged. -/
theorem seed_is_noop_on_nonempty (db : Db) (h : 0 < db.sales_transactions.length) :
    seedSampleData db =
      (db, "Database already contains " ++ toString db.sales_transactions.length ++
        " transactions") := by
  unfold seedSampleData
  simp [h]

/-- Witness for C9 at a concrete one-row database. -/
theorem seed_is_noop_on_nonempty_witness :
    0 < sampleDb.sales_transactions.length ∧
    seedSampleData sampleDb =
      (sampleDb, "Database already contains " ++
        toString sampleDb.sales_transactions.length ++ " transactions") :=
  ⟨by decide, seed_is_noop_on_nonempty sampleDb (by decide)⟩

/-- The grouping keys of `groupedProducts` are exactly the deduplicated
keys of the rows, in order. -/
theorem groupedProducts_keys (rows : List SalesTransaction) :
    (groupedProducts rows).map (fun g => (g.product_name, g.product_id)) =
      (rows.map productKey).dedup := by
  simp [groupedProducts, List.map_map, Function.comp_def]

/-- Every entry of `groupedProducts` is keyed by a key occurring among
the rows and carries that group's aggregate quantity and revenue. -/
theorem mem_groupedProducts (rows : List SalesTransaction) (g : ProductGroup)
    (hg : g ∈ groupedProducts rows) :
    (g.product_name, g.product_id) ∈ rows.map productKey ∧
    g.total_quantity = groupQuantity rows (g.product_name, g.product_id) ∧
    g.total_revenue = groupRevenue rows (g.product_name, g.product_id) := by
  simp only [groupedProducts, List.mem_map] at hg
  obtain ⟨k, hk, rfl⟩ := hg
  rw [List.mem_dedup] at hk
  exact ⟨hk, rfl, rfl⟩

/-- C6: `top_selling_products` has at most 10 entries, is sorted by
total revenue descending, mentions each `(product_name, product_id)`
identity at most once, and every entry's identity occurs among the
filtered rows with the group's total quantity and total revenue. -/
theorem top_products_spec (today : Int) (f : SalesFilter) (db : Db) :
    (getSalesAnalytics today f db).top_selling_products.length ≤ 10 ∧
    List.Sorted (byDesc ProductGroup.total_revenue)
      (getSalesAnalytics today f db).top_selling_products ∧
    ((getSalesAnalytics today f db).top_selling_products.map
      (fun g => (g.product_name, g.product_id))).Nodup ∧
    ∀ g ∈ (getSalesAnalytics today f db).top_selling_products,
      (g.product_name, g.product_id) ∈ (filteredRows today f db).map productKey ∧
      g.total_quantity =
        groupQuantity (filteredRows today f db) (g.product_name, g.product_id) ∧
      g.total_revenue =
        groupRevenue (filteredRows today f db) (g.product_name, g.product_id) := by
  have htop : (getSalesAnalytics today f db).top_selling_products =
      topSellingProducts (filteredRows today f db) := rfl
  rw [htop]
  set rows := filteredRows today f db with hrows
  refine ⟨?_, ?_, ?_, ?_⟩
  · exact List.length_take_le 10 _
  · exact List.Pairwise.sublist (List.take_sublist 10 _)
      (List.sorted_insertionSort (byDesc ProductGroup.total_revenue) (groupedProducts rows))
  · have hperm :
        List.Perm
          ((List.insertionSort (byDesc ProductGroup.total_revenue)
            (groupedProducts rows)).map
              (fun g : ProductGroup => (g.product_name, g.product_id)))
          ((groupedProducts rows).map
            (fun g : ProductGroup => (g.product_name, g.product_id))) :=
      (List.perm_insertionSort _ _).map _
    have hnodup0 :
        ((groupedProducts rows).map
          (fun g : ProductGroup => (g.product_name, g.product_id))).Nodup := by
      rw [groupedProducts_keys]
      exact List.nodup_dedup _
    have hnodup1 :
        ((List.insertionSort (byDesc ProductGroup.total_revenue)
            (groupedProducts rows)).map
              (fun g : ProductGroup => (g.product_name, g.product_id))).Nodup :=
      hperm.nodup_iff.mpr hnodup0
    rw [topSellingProducts, List.map_take]
    exact List.Nodup.sublist (List.take_sublist 10 _) hnodup1
  · intro g hg
    have hg1 : g ∈ List.insertionSort (byDesc ProductGroup.total_revenue)
        (groupedProducts rows) :=
      List.take_subset 10 _ hg
    have hg2 : g ∈ groupedProducts rows := (List.mem_insertionSort _).mp hg1
    exact mem_groupedProducts rows g hg2

/-- C10: the product aggregation's `category_performance` and all three
`inventory_insights` fields are identical for any two choices of the
category parameter: they are computed over all transactions. -/
theorem product_category_map_ignores_filter (db : Db) (c₁ c₂ : Option String) :
    (getProductAnalytics c₁ db).category_performance =
      (getProductAnalytics c₂ db).category_performance ∧
    (getProductAnalytics c₁ db).total_categories =
      (getProductAnalytics c₂ db).total_categories ∧
    (getProductAnalytics c₁ db).most_profitable_category =
      (getProductAnalytics c₂ db).most_profitable_category ∧
    (getProductAnalytics c₁ db).least_profitable_category =
      (getProductAnalytics c₂ db).least_profitable_category :=
  ⟨rfl, rfl, rfl, rfl⟩

end ECommerceAnalytics
